import Mathlib

/-!
Shallow embedding of the progression & persistence core of the browser
clicker game.  The authority is the final revision of the source
(src/unnamed/part_002: the mode-aware variant with the admin panel and the
override flags); earlier revisions (src/script.js, src/unnamed/part_000,
src/unnamed/part_001) are noted where their behaviour differs.

Modelling conventions:
* JavaScript numbers are modelled as rationals (ℚ); `Math.floor` is
  `Int.floor`, `Math.round` is `⌊x + 1/2⌋` (JS rounds half-way cases
  toward +∞), `Math.pow` with a natural exponent is `(· ^ ·)`.
* Upgrade levels are natural numbers (the data model declares them
  non-negative integers, and `validateAdminInput` rejects non-integers).
* Presentation-only data (DOM handles, upgrade names/descriptions, the
  transient `totalUpgrades` display counter written by `updateCPS`, theme
  classes, console logging) is excluded, as the specification excludes it.
* `localStorage` is a record of the two save slots plus the mode key; a
  slot holds the parsed form of the serialized state.
-/

namespace Clicker

/-- The two game modes of `UPGRADE_CONFIGS` (part_002 lines 15-48). -/
inductive GameMode where
  | crypto
  | pencil
deriving DecidableEq, Repr

/-- Per-upgrade bonus magnitudes of one mode's configuration
(name/description strings are presentation-only and omitted). -/
structure BonusConfig where
  cpcBonus : ℚ
  cpsBonus : ℚ
deriving DecidableEq, Repr

/-- One mode's upgrade configuration table. -/
structure ModeConfig where
  upgrade1 : BonusConfig
  upgrade2 : BonusConfig
deriving DecidableEq, Repr

/-- `UPGRADE_CONFIGS` (part_002 lines 15-48): both modes carry
`cpcBonus 1` for upgrade 1 and `cpsBonus 5` for upgrade 2. -/
def UPGRADE_CONFIGS : GameMode → ModeConfig
  | .crypto => ⟨⟨1, 0⟩, ⟨0, 5⟩⟩
  | .pencil => ⟨⟨1, 0⟩, ⟨0, 5⟩⟩

/-- One upgrade's persistent state (part_002 lines 57-68). -/
structure UpgradeState where
  level : ℕ
  baseCost : ℚ
  costMultiplier : ℚ
deriving DecidableEq, Repr

/-- The fixed upgrade table: internal keys `cpuOverclock` and `gpuMiner`. -/
structure UpgradeMap where
  cpuOverclock : UpgradeState
  gpuMiner : UpgradeState
deriving DecidableEq, Repr

/-- The canonical game-state record (part_002 lines 52-73). -/
structure GameState where
  clicks : ℚ
  totalClicksEarned : ℚ
  cpc : ℚ
  cps : ℚ
  upgrades : UpgradeMap
  activeTab : String
  isAdminUnlocked : Bool
  isCpcOverridden : Bool
  isCpsOverridden : Bool
deriving DecidableEq, Repr

/-- `DEFAULT_GAME_STATE` (part_002 lines 52-73): baseCosts 10 and 100,
multipliers 1.5 and 1.6. -/
def DEFAULT_GAME_STATE : GameState where
  clicks := 0
  totalClicksEarned := 0
  cpc := 1
  cps := 0
  upgrades := ⟨⟨0, 10, 3/2⟩, ⟨0, 100, 8/5⟩⟩
  activeTab := "upgrades"
  isAdminUnlocked := false
  isCpcOverridden := false
  isCpsOverridden := false

/-- Internal upgrade keys. -/
inductive UpgradeKey where
  | cpuOverclock
  | gpuMiner
deriving DecidableEq, Repr

/-- Read one upgrade's state by key. -/
def GameState.up (s : GameState) : UpgradeKey → UpgradeState
  | .cpuOverclock => s.upgrades.cpuOverclock
  | .gpuMiner => s.upgrades.gpuMiner

/-- Replace one upgrade's state by key. -/
def GameState.setUp (s : GameState) (k : UpgradeKey) (u : UpgradeState) :
    GameState :=
  match k with
  | .cpuOverclock => { s with upgrades := { s.upgrades with cpuOverclock := u } }
  | .gpuMiner => { s with upgrades := { s.upgrades with gpuMiner := u } }

/-- `calculateCost` (part_002 lines 249-251):
`Math.floor(baseCost * Math.pow(multiplier, currentLevel))`. -/
def calculateCost (baseCost multiplier : ℚ) (currentLevel : ℕ) : ℤ :=
  ⌊baseCost * multiplier ^ currentLevel⌋

/-- JS `Math.round`: nearest integer, half-way cases toward +∞. -/
def jsRound (x : ℚ) : ℤ := ⌊x + 1/2⌋

/-- `updateCPS` (part_002 lines 256-280): recompute `cpc` and `cps` from
levels and the active mode's bonuses, unless the stat is overridden.
(The transient `totalUpgrades` display counter it also stores is
presentation-only and omitted.) -/
def updateCPS (mode : GameMode) (s : GameState) : GameState :=
  let config := UPGRADE_CONFIGS mode
  let s1 :=
    if s.isCpcOverridden then s
    else { s with cpc := 1 + (s.upgrades.cpuOverclock.level : ℚ) * config.upgrade1.cpcBonus }
  if s1.isCpsOverridden then s1
  else { s1 with cps := (s1.upgrades.gpuMiner.level : ℚ) * config.upgrade2.cpsBonus }

/-- `gameLoop` (part_002 lines 285-298): if `cps > 0`, add
`Math.round(cps)` to `clicks` and `totalClicksEarned`; the Boolean
records whether the periodic save fired
(`Math.floor(clicks) % 5 === 0` after the update). -/
def gameLoop (s : GameState) : GameState × Bool :=
  if 0 < s.cps then
    let clicksGained : ℤ := jsRound s.cps
    let s1 := { s with clicks := s.clicks + (clicksGained : ℚ),
                       totalClicksEarned := s.totalClicksEarned + (clicksGained : ℚ) }
    (s1, ⌊s1.clicks⌋ % 5 = 0)
  else (s, false)

/-- The in-memory state transition of one clock firing. -/
def gameLoopTick (s : GameState) : GameState := (gameLoop s).1

/-- `handleGameClick` (part_002 lines 485-491). -/
def handleGameClick (s : GameState) : GameState :=
  { s with clicks := s.clicks + s.cpc,
           totalClicksEarned := s.totalClicksEarned + s.cpc }

/-- Outcome of a purchase attempt. -/
inductive BuyResult where
  | success
  | insufficientFunds
deriving DecidableEq, Repr

/-- Body of `handleBuyUpgrade` (part_002 lines 496-525) after the key has
been resolved: compute the cost, and if affordable deduct it, increment
the level, clear the override flag the upgrade feeds, and recompute the
derived stats; otherwise leave the state unchanged. -/
def buyUpgradeKey (mode : GameMode) (key : UpgradeKey) (s : GameState) :
    BuyResult × GameState :=
  let u := s.up key
  let cost : ℚ := (calculateCost u.baseCost u.costMultiplier u.level : ℤ)
  if cost ≤ s.clicks then
    let s1 := ({ s with clicks := s.clicks - cost } : GameState).setUp key
      { u with level := u.level + 1 }
    let s2 :=
      match key with
      | .cpuOverclock => { s1 with isCpcOverridden := false }
      | .gpuMiner => { s1 with isCpsOverridden := false }
    (.success, updateCPS mode s2)
  else (.insufficientFunds, s)

/-- `handleBuyUpgrade` (part_002 lines 496-525): the DOM passes the ids
`"1"` and `"2"`; the code resolves `'1'` to `cpuOverclock` and EVERY other
id to `gpuMiner` (`upgradeId === '1' ? 'cpuOverclock' : 'gpuMiner'`), so
its `if (!upgrade)` guard is unreachable. -/
def handleBuyUpgrade (mode : GameMode) (upgradeId : String) (s : GameState) :
    BuyResult × GameState :=
  buyUpgradeKey mode (if upgradeId = "1" then .cpuOverclock else .gpuMiner) s

/-- `handleAdminSetClicks` (part_002 lines 702-715), after
`validateAdminInput`: `none` when the value is below the input's `min`
attribute (modelled from the spec: 0 for currency fields; the HTML is not
under src/); otherwise set `clicks` and add the difference to
`totalClicksEarned` only when it is positive. -/
def handleAdminSetClicks (value minValue : ℚ) (s : GameState) :
    Option GameState :=
  if value < minValue then none
  else
    let diff := value - s.clicks
    some { s with clicks := value,
                  totalClicksEarned :=
                    if 0 < diff then s.totalClicksEarned + diff
                    else s.totalClicksEarned }

/-- `handleAdminSetCPC` (part_002 lines 717-726): set `cpc` directly and
raise the override flag. -/
def handleAdminSetCPC (value minValue : ℚ) (s : GameState) :
    Option GameState :=
  if value < minValue then none
  else some { s with cpc := value, isCpcOverridden := true }

/-- `handleAdminSetCPS` (part_002 lines 728-737): set `cps` directly and
raise the override flag. -/
def handleAdminSetCPS (value minValue : ℚ) (s : GameState) :
    Option GameState :=
  if value < minValue then none
  else some { s with cps := value, isCpsOverridden := true }

/-- `handleAdminSetCpuLevel` (part_002 lines 739-749): the validated input
is a whole number at least the input's `min` (modelled from the spec: 0
for level fields), hence a natural number; set the level, clear the CPC
override, recompute derived stats. -/
def handleAdminSetCpuLevel (mode : GameMode) (value : ℕ) (s : GameState) :
    GameState :=
  let s1 := s.setUp .cpuOverclock { s.upgrades.cpuOverclock with level := value }
  updateCPS mode { s1 with isCpcOverridden := false }

/-- `handleAdminSetGpuLevel` (part_002 lines 751-761): set the level,
clear the CPS override, recompute derived stats. -/
def handleAdminSetGpuLevel (mode : GameMode) (value : ℕ) (s : GameState) :
    GameState :=
  let s1 := s.setUp .gpuMiner { s.upgrades.gpuMiner with level := value }
  updateCPS mode { s1 with isCpsOverridden := false }

/-- The `BORNTOCODE` branch of `handleRedeemCode` (part_002 lines
588-597): grant 5000 clicks, counted in `totalClicksEarned`. -/
def redeemBornToCode (s : GameState) : GameState :=
  { s with clicks := s.clicks + 5000,
           totalClicksEarned := s.totalClicksEarned + 5000 }

/-! ## Persistence (part_002 lines 129-241)

`localStorage` stores strings; a slot's content is modelled in parsed
form.  A saved payload may miss fields (older revisions' saves), so every
field is an `Option`.  JavaScript's `loadedData.f || default` coalesces
every falsy value — `undefined`/`null` (here `none`), `0`, `false` and
`""` — to the default. -/

/-- The saved form of one upgrade entry.  `loadGame` reads only `level`;
`baseCost`/`costMultiplier` are written by `JSON.stringify` but ignored
on load (the defaults are kept). -/
structure SavedUpgradeEntry where
  level : Option ℕ
  baseCost : Option ℚ
  costMultiplier : Option ℚ
deriving DecidableEq, Repr

/-- The saved form of the upgrade table. -/
structure SavedUpgrades where
  cpuOverclock : Option SavedUpgradeEntry
  gpuMiner : Option SavedUpgradeEntry
deriving DecidableEq, Repr

/-- The saved form of a game-state record. -/
structure SavedPayload where
  clicks : Option ℚ
  totalClicksEarned : Option ℚ
  cpc : Option ℚ
  cps : Option ℚ
  activeTab : Option String
  isAdminUnlocked : Option Bool
  isCpcOverridden : Option Bool
  isCpsOverridden : Option Bool
  upgrades : Option SavedUpgrades
deriving DecidableEq, Repr

/-- JS `x || d` for a possibly-missing number: `undefined`, `null` and
`0` are falsy. -/
def coalNum (o : Option ℚ) (d : ℚ) : ℚ :=
  match o with
  | none => d
  | some x => if x = 0 then d else x

/-- JS `b || d` for a possibly-missing Boolean: `false` is falsy. -/
def coalBool (o : Option Bool) (d : Bool) : Bool :=
  match o with
  | none => d
  | some b => if b then true else d

/-- JS `s || d` for a possibly-missing string: `""` is falsy. -/
def coalStr (o : Option String) (d : String) : String :=
  match o with
  | none => d
  | some s => if s = "" then d else s

/-- `loadedData.upgrades[key].level || 0` guarded by
`if (loadedData.upgrades && loadedData.upgrades[key])`; when the guard
fails the default level 0 of the fresh template is kept. -/
def coalLevel (u : Option SavedUpgrades)
    (pick : SavedUpgrades → Option SavedUpgradeEntry) : ℕ :=
  match u with
  | none => 0
  | some us =>
    match pick us with
    | none => 0
    | some e =>
      match e.level with
      | none => 0
      | some l => if l = 0 then 0 else l

/-- The merge step of `loadGame` (part_002 lines 144-166): start from a
fresh copy of `DEFAULT_GAME_STATE` and coalesce each field of the loaded
data onto it with `||`. -/
def mergePayload (p : SavedPayload) : GameState where
  clicks := coalNum p.clicks 0
  totalClicksEarned := coalNum p.totalClicksEarned 0
  cpc := coalNum p.cpc 1
  cps := coalNum p.cps 0
  upgrades :=
    ⟨{ DEFAULT_GAME_STATE.upgrades.cpuOverclock with
         level := coalLevel p.upgrades (·.cpuOverclock) },
     { DEFAULT_GAME_STATE.upgrades.gpuMiner with
         level := coalLevel p.upgrades (·.gpuMiner) }⟩
  activeTab := coalStr p.activeTab ("upgrades")
  isAdminUnlocked := coalBool p.isAdminUnlocked false
  isCpcOverridden := coalBool p.isCpcOverridden false
  isCpsOverridden := coalBool p.isCpsOverridden false

/-- `JSON.stringify` of the in-memory state: every field is present. -/
def serialize (s : GameState) : SavedPayload where
  clicks := some s.clicks
  totalClicksEarned := some s.totalClicksEarned
  cpc := some s.cpc
  cps := some s.cps
  activeTab := some s.activeTab
  isAdminUnlocked := some s.isAdminUnlocked
  isCpcOverridden := some s.isCpcOverridden
  isCpsOverridden := some s.isCpsOverridden
  upgrades := some
    ⟨some ⟨some s.upgrades.cpuOverclock.level,
           some s.upgrades.cpuOverclock.baseCost,
           some s.upgrades.cpuOverclock.costMultiplier⟩,
     some ⟨some s.upgrades.gpuMiner.level,
           some s.upgrades.gpuMiner.baseCost,
           some s.upgrades.gpuMiner.costMultiplier⟩⟩

/-- What `localStorage.getItem` + `JSON.parse` can yield for a slot:
no entry, an unparseable string, or a parsed payload. -/
inductive LoadInput where
  | absent
  | corrupt
  | parsed (p : SavedPayload)
deriving DecidableEq, Repr

/-- `loadGame` (part_002 lines 139-178) as a function of the current
in-memory state and the slot content.  A parsed payload is merged onto a
fresh default copy; a parse failure is caught and falls back to the
default template; when NO save exists the in-memory state is left as it
is (the code only logs — the comment `gameState is already
DEFAULT_GAME_STATE` holds at first load but not when `loadGame` is
reached from `switchGameMode`). -/
def loadGame (current : GameState) : LoadInput → GameState
  | .absent => current
  | .corrupt => DEFAULT_GAME_STATE
  | .parsed p => mergePayload p

/-- The durable medium: one slot per mode plus the mode key
(`cryptoClickerSave`, `pencilClickerSave`, `clickerGameMode`). -/
structure Store where
  cryptoSlot : Option SavedPayload
  pencilSlot : Option SavedPayload
  modeKey : Option GameMode
deriving DecidableEq, Repr

/-- Read a mode's slot (`getCurrentSaveKey`, part_002 lines 132-134). -/
def Store.slot (st : Store) : GameMode → Option SavedPayload
  | .crypto => st.cryptoSlot
  | .pencil => st.pencilSlot

/-- Write a mode's slot. -/
def Store.setSlot (st : Store) (m : GameMode) (p : SavedPayload) : Store :=
  match m with
  | .crypto => { st with cryptoSlot := some p }
  | .pencil => { st with pencilSlot := some p }

/-- The whole system: active mode, in-memory state, durable store. -/
structure World where
  mode : GameMode
  state : GameState
  store : Store
deriving DecidableEq, Repr

/-- `saveGame` (part_002 lines 184-192): serialize the in-memory state
into the active mode's slot. -/
def saveGameW (w : World) : World :=
  { w with store := w.store.setSlot w.mode (serialize w.state) }

/-- Classify a slot's content as a load input. -/
def slotInput : Option SavedPayload → LoadInput
  | none => .absent
  | some p => .parsed p

/-- `loadGame` acting on the world: read the active mode's slot. -/
def loadGameW (w : World) : World :=
  { w with state := loadGame w.state (slotInput (w.store.slot w.mode)) }

/-- `switchGameMode` (part_002 lines 208-241): no-op when already in the
requested mode; otherwise persist the mode key, save the outgoing state
into the OLD mode's slot, load the incoming mode's slot, and recompute
derived stats for the new mode (`updateCPS`).  The trailing
`checkAdminStatus`/`updateUpgradeDisplay`/`renderUI`/`switchTab` calls
are presentation-only (the `switchTab` re-save writes the just-loaded
state to the incoming slot and does not change the in-memory state). -/
def switchGameMode (newMode : GameMode) (w : World) : World :=
  if w.mode = newMode then w
  else
    let st1 := { w.store with modeKey := some newMode }
    let st2 := st1.setSlot w.mode (serialize w.state)
    let w1 : World := ⟨newMode, w.state, st2⟩
    let w2 := loadGameW w1
    { w2 with state := updateCPS newMode w2.state }

/-- User intents that can fire while a mode is active (the ones claim C6
quantifies over): a manual click and a purchase attempt.  Each handler
ends with `saveGame()` on success (part_002 lines 485-525). -/
inductive UserOp where
  | click
  | buy (upgradeId : String)
deriving DecidableEq, Repr

/-- Apply one user intent to the world. -/
def applyUserOp (op : UserOp) (w : World) : World :=
  match op with
  | .click => saveGameW { w with state := handleGameClick w.state }
  | .buy upgradeId =>
    let r := handleBuyUpgrade w.mode upgradeId w.state
    match r.1 with
    | .success => saveGameW { w with state := r.2 }
    | .insufficientFunds => { w with state := r.2 }

/-- Apply a sequence of user intents. -/
def applyUserOps (ops : List UserOp) (w : World) : World :=
  ops.foldl (fun w op => applyUserOp op w) w

/-! ## Helper lemmas -/

theorem setUp_clicks (s : GameState) (k : UpgradeKey) (u : UpgradeState) :
    (s.setUp k u).clicks = s.clicks := by
  cases k <;> rfl

theorem up_setUp (s : GameState) (k : UpgradeKey) (u : UpgradeState) :
    (s.setUp k u).up k = u := by
  cases k <;> rfl

theorem updateCPS_clicks (mode : GameMode) (s : GameState) :
    (updateCPS mode s).clicks = s.clicks := by
  unfold updateCPS
  dsimp only
  split <;> split <;> rfl

theorem updateCPS_totalClicksEarned (mode : GameMode) (s : GameState) :
    (updateCPS mode s).totalClicksEarned = s.totalClicksEarned := by
  unfold updateCPS
  dsimp only
  split <;> split <;> rfl

theorem updateCPS_upgrades (mode : GameMode) (s : GameState) :
    (updateCPS mode s).upgrades = s.upgrades := by
  unfold updateCPS
  dsimp only
  split <;> split <;> rfl

theorem updateCPS_activeTab (mode : GameMode) (s : GameState) :
    (updateCPS mode s).activeTab = s.activeTab := by
  unfold updateCPS
  dsimp only
  split <;> split <;> rfl

theorem updateCPS_flags (mode : GameMode) (s : GameState) :
    (updateCPS mode s).isCpcOverridden = s.isCpcOverridden ∧
    (updateCPS mode s).isCpsOverridden = s.isCpsOverridden ∧
    (updateCPS mode s).isAdminUnlocked = s.isAdminUnlocked := by
  unfold updateCPS
  dsimp only
  split <;> split <;> exact ⟨rfl, rfl, rfl⟩

theorem updateCPS_cps_of_overridden (mode : GameMode) (s : GameState)
    (h : s.isCpsOverridden = true) : (updateCPS mode s).cps = s.cps := by
  unfold updateCPS
  dsimp only
  split <;> simp [h]

theorem updateCPS_cpc_of_overridden (mode : GameMode) (s : GameState)
    (h : s.isCpcOverridden = true) : (updateCPS mode s).cpc = s.cpc := by
  unfold updateCPS
  dsimp only
  simp [h]
  split <;> rfl

theorem updateCPS_cps_of_not_overridden (mode : GameMode) (s : GameState)
    (h : s.isCpsOverridden = false) :
    (updateCPS mode s).cps =
      (s.upgrades.gpuMiner.level : ℚ) * (UPGRADE_CONFIGS mode).upgrade2.cpsBonus := by
  unfold updateCPS
  dsimp only
  split <;> simp [h]

theorem gameLoop_cps (s : GameState) : (gameLoop s).1.cps = s.cps := by
  unfold gameLoop
  dsimp only
  split <;> rfl

theorem gameLoop_flags (s : GameState) :
    (gameLoop s).1.isCpcOverridden = s.isCpcOverridden ∧
    (gameLoop s).1.isCpsOverridden = s.isCpsOverridden := by
  unfold gameLoop
  dsimp only
  split <;> exact ⟨rfl, rfl⟩

theorem gameLoop_cpc (s : GameState) : (gameLoop s).1.cpc = s.cpc := by
  unfold gameLoop
  dsimp only
  split <;> rfl

/-! ## Claim C2 — cost function -/

/-- C2 (counterexample): the claim asserts that for EVERY positive
baseCost the cost at level 0 equals `baseCost`; but
`calculateCost(10.5, 1.5, 0) = floor(10.5) = 10 ≠ 10.5`. -/
theorem calculateCost_level_zero_ne_baseCost :
    calculateCost (21/2) (3/2) 0 = 10 ∧
    ((calculateCost (21/2) (3/2) 0 : ℤ) : ℚ) ≠ 21/2 := by
  constructor
  · norm_num [calculateCost]
  · norm_num [calculateCost]

/-- C2 (amended): for every positive `baseCost` and every multiplier
`> 1`, `calculateCost` returns `floor(baseCost * multiplier ^ level)`;
at level 0 it returns `floor(baseCost)` — equal to `baseCost` whenever
`baseCost` is an integer, as for every upgrade of the game — and it is
monotonically non-decreasing in the level. -/
theorem calculateCost_spec (baseCost multiplier : ℚ)
    (hb : 0 < baseCost) (hm : 1 < multiplier) :
    (∀ level : ℕ, calculateCost baseCost multiplier level =
      ⌊baseCost * multiplier ^ level⌋) ∧
    calculateCost baseCost multiplier 0 = ⌊baseCost⌋ ∧
    (∀ n : ℤ, baseCost = (n : ℚ) →
      ((calculateCost baseCost multiplier 0 : ℤ) : ℚ) = baseCost) ∧
    (∀ k l : ℕ, k ≤ l →
      calculateCost baseCost multiplier k ≤ calculateCost baseCost multiplier l) := by
  refine ⟨fun _ => rfl, ?_, ?_, ?_⟩
  · simp [calculateCost]
  · rintro n rfl
    simp [calculateCost]
  · intro k l hkl
    apply Int.floor_le_floor
    gcongr
    exact hm.le

/-- C2 (witness): at `baseCost = 10`, `multiplier = 1.5` the costs are
10, 15, 22 at levels 0, 1, 2 and the cost is monotone from level 1 to 2. -/
theorem calculateCost_spec_witness :
    calculateCost 10 (3/2) 0 = 10 ∧ calculateCost 10 (3/2) 1 = 15 ∧
    calculateCost 10 (3/2) 2 = 22 ∧
    calculateCost 10 (3/2) 1 ≤ calculateCost 10 (3/2) 2 := by
  refine ⟨by norm_num [calculateCost], by norm_num [calculateCost],
    by norm_num [calculateCost], ?_⟩
  exact (calculateCost_spec 10 (3/2) (by norm_num) (by norm_num)).2.2.2 1 2
    (by norm_num)

/-! ## Claim C4 — applyTick -/

/-- C4: the clock-firing handler `gameLoop` is a no-op (and performs no
save) when `cps ≤ 0`; otherwise it adds exactly
`Math.round(cps) = ⌊cps + 1/2⌋` — rounding, not truncation — to both
`clicks` and `totalClicksEarned`, and changes nothing else of the state. -/
theorem applyTick_spec (s : GameState) :
    (s.cps ≤ 0 → gameLoop s = (s, false)) ∧
    (0 < s.cps →
      (gameLoopTick s).clicks = s.clicks + ((⌊s.cps + 1/2⌋ : ℤ) : ℚ) ∧
      (gameLoopTick s).totalClicksEarned =
        s.totalClicksEarned + ((⌊s.cps + 1/2⌋ : ℤ) : ℚ) ∧
      (gameLoopTick s).cpc = s.cpc ∧ (gameLoopTick s).cps = s.cps ∧
      (gameLoopTick s).upgrades = s.upgrades) := by
  constructor
  · intro h
    unfold gameLoop
    rw [if_neg (by exact not_lt.mpr h)]
  · intro h
    unfold gameLoopTick gameLoop jsRound
    rw [if_pos h]
    exact ⟨rfl, rfl, rfl, rfl, rfl⟩

/-- C4 (witness): a sub-1 rate `cps = 1/2` still produces output — the
tick adds `round(1/2) = 1` (truncation would add 0); and a state with
`cps = 0` is left untouched. -/
theorem applyTick_spec_witness :
    (gameLoopTick { DEFAULT_GAME_STATE with cps := 1/2 }).clicks =
      DEFAULT_GAME_STATE.clicks + ((⌊(1/2 : ℚ) + 1/2⌋ : ℤ) : ℚ) ∧
    ((⌊(1/2 : ℚ) + 1/2⌋ : ℤ) : ℚ) = 1 ∧
    gameLoop DEFAULT_GAME_STATE = (DEFAULT_GAME_STATE, false) := by
  refine ⟨?_, by norm_num, ?_⟩
  · exact ((applyTick_spec { DEFAULT_GAME_STATE with cps := 1/2 }).2
      (by norm_num : (0:ℚ) < 1/2)).1
  · exact (applyTick_spec DEFAULT_GAME_STATE).1 (by norm_num : (0:ℚ) ≤ 0)

/-! ## Claim C1 — purchase atomicity -/

/-- C1: for every state, mode and defined upgrade, with
`cost = calculateCost(baseCost, costMultiplier, level)`: if
`clicks < cost` the purchase reports insufficient funds and the whole
state is unchanged; if `cost ≤ clicks` the same operation deducts exactly
`cost` from `clicks` and increments the level by exactly 1, and the
post-state has `clicks ≥ 0`. -/
theorem purchase_atomic (mode : GameMode) (key : UpgradeKey) (s : GameState) :
    (s.clicks < ((calculateCost (s.up key).baseCost (s.up key).costMultiplier
        (s.up key).level : ℤ) : ℚ) →
      buyUpgradeKey mode key s = (.insufficientFunds, s)) ∧
    (((calculateCost (s.up key).baseCost (s.up key).costMultiplier
        (s.up key).level : ℤ) : ℚ) ≤ s.clicks →
      (buyUpgradeKey mode key s).1 = .success ∧
      (buyUpgradeKey mode key s).2.clicks =
        s.clicks - ((calculateCost (s.up key).baseCost (s.up key).costMultiplier
          (s.up key).level : ℤ) : ℚ) ∧
      ((buyUpgradeKey mode key s).2.up key).level = (s.up key).level + 1 ∧
      0 ≤ (buyUpgradeKey mode key s).2.clicks) := by
  constructor
  · intro h
    unfold buyUpgradeKey
    rw [if_neg (by exact not_le.mpr h)]
  · intro h
    unfold buyUpgradeKey
    rw [if_pos h]
    cases key <;>
      simp [updateCPS_clicks, updateCPS_upgrades, GameState.up, GameState.setUp] <;>
      exact h

/-- C1 (witness): with `baseCost 10`, level 0 (cost 10): at `clicks = 5`
the purchase fails and leaves the state unchanged; at `clicks = 10` it
succeeds, leaves `clicks = 10 - 10 ≥ 0` and sets the level to 1. -/
theorem purchase_atomic_witness :
    buyUpgradeKey .crypto .cpuOverclock { DEFAULT_GAME_STATE with clicks := 5 } =
      (.insufficientFunds, { DEFAULT_GAME_STATE with clicks := 5 }) ∧
    ((buyUpgradeKey .crypto .cpuOverclock
        { DEFAULT_GAME_STATE with clicks := 10 }).2.up .cpuOverclock).level = 1 ∧
    0 ≤ (buyUpgradeKey .crypto .cpuOverclock
        { DEFAULT_GAME_STATE with clicks := 10 }).2.clicks := by
  refine ⟨?_, ?_, ?_⟩
  · exact (purchase_atomic .crypto .cpuOverclock _).1
      (by norm_num [GameState.up, DEFAULT_GAME_STATE, calculateCost])
  · exact ((purchase_atomic .crypto .cpuOverclock _).2
      (by norm_num [GameState.up, DEFAULT_GAME_STATE, calculateCost])).2.2.1
  · exact ((purchase_atomic .crypto .cpuOverclock _).2
      (by norm_num [GameState.up, DEFAULT_GAME_STATE, calculateCost])).2.2.2

/-! ## Claim C3 — override freeze -/

/-- The operations claim C3 quantifies over between the override and the
next level change: clock ticks and derived-stat recomputations. -/
inductive FreezeOp where
  | tick
  | recompute (mode : GameMode)
deriving DecidableEq, Repr

/-- Apply one tick/recompute step. -/
def applyFreezeOp : FreezeOp → GameState → GameState
  | .tick, s => gameLoopTick s
  | .recompute mode, s => updateCPS mode s

/-- Apply a sequence of tick/recompute steps. -/
def applyFreezeOps (ops : List FreezeOp) (s : GameState) : GameState :=
  ops.foldl (fun s op => applyFreezeOp op s) s

theorem freeze_invariant (ops : List FreezeOp) :
    ∀ s : GameState,
      (s.isCpsOverridden = true →
        (applyFreezeOps ops s).cps = s.cps ∧
        (applyFreezeOps ops s).isCpsOverridden = true) ∧
      (s.isCpcOverridden = true →
        (applyFreezeOps ops s).cpc = s.cpc ∧
        (applyFreezeOps ops s).isCpcOverridden = true) := by
  induction ops with
  | nil => exact fun s => ⟨fun h => ⟨rfl, h⟩, fun h => ⟨rfl, h⟩⟩
  | cons op tail ih =>
    intro s
    constructor
    · intro h
      have h1 : (applyFreezeOp op s).cps = s.cps := by
        cases op with
        | tick => exact gameLoop_cps s
        | recompute mode => exact updateCPS_cps_of_overridden mode s h
      have h2 : (applyFreezeOp op s).isCpsOverridden = true := by
        cases op with
        | tick => exact (gameLoop_flags s).2.trans h
        | recompute mode => exact ((updateCPS_flags mode s).2.1).trans h
      have hrest := (ih (applyFreezeOp op s)).1 h2
      exact ⟨hrest.1.trans h1, hrest.2⟩
    · intro h
      have h1 : (applyFreezeOp op s).cpc = s.cpc := by
        cases op with
        | tick => exact gameLoop_cpc s
        | recompute mode => exact updateCPS_cpc_of_overridden mode s h
      have h2 : (applyFreezeOp op s).isCpcOverridden = true := by
        cases op with
        | tick => exact (gameLoop_flags s).1.trans h
        | recompute mode => exact ((updateCPS_flags mode s).1).trans h
      have hrest := (ih (applyFreezeOp op s)).2 h2
      exact ⟨hrest.1.trans h1, hrest.2⟩

theorem buy_cpu_preserves_cps (mode : GameMode) (t : GameState)
    (ht : t.isCpsOverridden = true) :
    (buyUpgradeKey mode .cpuOverclock t).2.cps = t.cps ∧
    (buyUpgradeKey mode .cpuOverclock t).2.isCpsOverridden = true := by
  unfold buyUpgradeKey
  dsimp only
  split
  · constructor
    · rw [updateCPS_cps_of_overridden]
      · rfl
      · exact ht
    · exact (updateCPS_flags _ _).2.1.trans ht
  · exact ⟨rfl, ht⟩

/-- C3: after a successful admin override of `cps` to `v`, `cps = v` and
the override flag is up; every subsequent sequence of ticks and
recomputations leaves `cps = v` (and the flag up); a successful purchase
of the feeding upgrade (`gpuMiner`), or an admin level-set of it, clears
the flag and makes `cps` equal again to its derivation
`level * cpsBonus` from the (new) level; a purchase of the OTHER upgrade
(`cpuOverclock`) leaves the `cps` freeze intact.  The `cpc` stat is
frozen by its override symmetrically. -/
theorem override_freeze (mode : GameMode) (v minValue : ℚ) (s s' : GameState)
    (h : handleAdminSetCPS v minValue s = some s') :
    s'.cps = v ∧ s'.isCpsOverridden = true ∧
    (∀ ops : List FreezeOp,
      (applyFreezeOps ops s').cps = v ∧
      (applyFreezeOps ops s').isCpsOverridden = true) ∧
    (∀ t : GameState, (buyUpgradeKey mode .gpuMiner t).1 = .success →
      (buyUpgradeKey mode .gpuMiner t).2.isCpsOverridden = false ∧
      (buyUpgradeKey mode .gpuMiner t).2.upgrades.gpuMiner.level =
        t.upgrades.gpuMiner.level + 1 ∧
      (buyUpgradeKey mode .gpuMiner t).2.cps =
        ((buyUpgradeKey mode .gpuMiner t).2.upgrades.gpuMiner.level : ℚ) *
          (UPGRADE_CONFIGS mode).upgrade2.cpsBonus) ∧
    (∀ t : GameState, ∀ lvl : ℕ,
      (handleAdminSetGpuLevel mode lvl t).isCpsOverridden = false ∧
      (handleAdminSetGpuLevel mode lvl t).cps =
        ((handleAdminSetGpuLevel mode lvl t).upgrades.gpuMiner.level : ℚ) *
          (UPGRADE_CONFIGS mode).upgrade2.cpsBonus) ∧
    (∀ t : GameState, t.isCpsOverridden = true →
      (buyUpgradeKey mode .cpuOverclock t).2.cps = t.cps ∧
      (buyUpgradeKey mode .cpuOverclock t).2.isCpsOverridden = true) ∧
    (∀ p q : ℚ, ∀ t t' : GameState, handleAdminSetCPC p q t = some t' →
      ∀ ops : List FreezeOp, (applyFreezeOps ops t').cpc = p) := by
  have hs' : s' = { s with cps := v, isCpsOverridden := true } := by
    unfold handleAdminSetCPS at h
    by_cases hv : v < minValue
    · rw [if_pos hv] at h; exact absurd h (by simp)
    · rw [if_neg hv] at h; exact (Option.some.injEq _ _ ▸ h.symm).symm ▸ rfl
  subst hs'
  refine ⟨rfl, rfl, ?_, ?_, ?_, ?_, ?_⟩
  · intro ops
    exact (freeze_invariant ops _).1 rfl
  · intro t hsucc
    unfold buyUpgradeKey at hsucc ⊢
    by_cases hc : ((calculateCost (t.up .gpuMiner).baseCost
        (t.up .gpuMiner).costMultiplier (t.up .gpuMiner).level : ℤ) : ℚ) ≤ t.clicks
    · rw [if_pos hc]
      dsimp only
      refine ⟨(updateCPS_flags mode _).2.1.trans rfl, ?_, ?_⟩
      · rw [updateCPS_upgrades]
        rfl
      · rw [updateCPS_cps_of_not_overridden mode _ rfl, updateCPS_upgrades]
    · rw [if_neg hc] at hsucc
      exact absurd hsucc (by simp)
  · intro t lvl
    unfold handleAdminSetGpuLevel
    dsimp only
    refine ⟨(updateCPS_flags mode _).2.1.trans rfl, ?_⟩
    rw [updateCPS_cps_of_not_overridden mode _ rfl, updateCPS_upgrades]
  · exact fun t ht => buy_cpu_preserves_cps mode t ht
  · intro p q t t' ht ops
    have ht' : t' = { t with cpc := p, isCpcOverridden := true } := by
      unfold handleAdminSetCPC at ht
      by_cases hq : p < q
      · rw [if_pos hq] at ht; exact absurd ht (by simp)
      · rw [if_neg hq] at ht; exact (Option.some.injEq _ _ ▸ ht.symm).symm ▸ rfl
    subst ht'
    exact ((freeze_invariant ops _).2 rfl).1

/-- The default state with `cps` admin-overridden to 999. -/
def cpsOverriddenState : GameState :=
  { DEFAULT_GAME_STATE with cps := 999, isCpsOverridden := true }

/-- The same overridden state, with 100 clicks in hand. -/
def cpsOverriddenRichState : GameState :=
  { cpsOverriddenState with clicks := 100 }

/-- C3 (witness): override `cps` to 999 on the default state; a tick
followed by a recomputation leaves `cps = 999`; buying `gpuMiner` with
enough funds succeeds and reverts `cps` to its derivation from the new
level. -/
theorem override_freeze_witness :
    (applyFreezeOps [.tick, .recompute .crypto] cpsOverriddenState).cps = 999 ∧
    (buyUpgradeKey .crypto .gpuMiner cpsOverriddenRichState).2.cps =
      (((buyUpgradeKey .crypto .gpuMiner
        cpsOverriddenRichState).2.upgrades.gpuMiner.level : ℕ) : ℚ) * 5 := by
  have h := override_freeze .crypto 999 0 DEFAULT_GAME_STATE cpsOverriddenState
    (by norm_num [handleAdminSetCPS, cpsOverriddenState])
  refine ⟨(h.2.2.1 [.tick, .recompute .crypto]).1, ?_⟩
  exact (h.2.2.2.1 cpsOverriddenRichState
    (by norm_num [buyUpgradeKey, calculateCost, GameState.up,
      DEFAULT_GAME_STATE, cpsOverriddenRichState, cpsOverriddenState])).2.2

/-! ## Claim C7 — admin set-currency -/

/-- C7: a successful admin set of `clicks` to a valid (non-negative)
value sets `clicks` to the value and adds exactly
`max(0, value - previousClicks)` to `totalClicksEarned`; in particular an
admin decrease never decreases `totalClicksEarned`, and nothing else of
the state changes. -/
theorem admin_set_clicks_spec (value : ℚ) (s s' : GameState)
    (hv : 0 ≤ value) (h : handleAdminSetClicks value 0 s = some s') :
    s'.clicks = value ∧
    s'.totalClicksEarned = s.totalClicksEarned + max 0 (value - s.clicks) ∧
    s.totalClicksEarned ≤ s'.totalClicksEarned ∧
    s'.cpc = s.cpc ∧ s'.cps = s.cps ∧ s'.upgrades = s.upgrades := by
  unfold handleAdminSetClicks at h
  rw [if_neg (by exact not_lt.mpr hv)] at h
  dsimp only at h
  have hs' : s' = _ := (Option.some.inj h).symm
  subst hs'
  refine ⟨rfl, ?_, ?_, rfl, rfl, rfl⟩
  · dsimp only
    by_cases hd : 0 < value - s.clicks
    · rw [if_pos hd, max_eq_right hd.le]
    · rw [if_neg hd, max_eq_left (not_lt.mp hd), add_zero]
  · dsimp only
    by_cases hd : 0 < value - s.clicks
    · rw [if_pos hd]; linarith
    · rw [if_neg hd]

/-- C7 (witness): lowering `clicks` from 10 to 3 leaves
`totalClicksEarned` unchanged (`max(0, 3-10) = 0`). -/
theorem admin_set_clicks_spec_witness :
    ∃ s' : GameState,
      handleAdminSetClicks 3 0 { DEFAULT_GAME_STATE with clicks := 10 } = some s' ∧
      s'.clicks = 3 ∧
      s'.totalClicksEarned =
        DEFAULT_GAME_STATE.totalClicksEarned + max 0 ((3 : ℚ) - 10) := by
  refine ⟨_, rfl, ?_⟩
  have h := admin_set_clicks_spec 3 { DEFAULT_GAME_STATE with clicks := 10 } _
    (by norm_num) rfl
  exact ⟨h.1, h.2.1⟩

/-! ## Claim C8 — unknown upgrade id -/

/-- C8 (failing input): in the final revision (part_002) the id
resolution `upgradeId === '1' ? 'cpuOverclock' : 'gpuMiner'` sends EVERY
id other than `"1"` — including ids not defined for the active mode, such
as `"3"` — to `gpuMiner`, so with 100 clicks in hand `handleBuyUpgrade("3")`
purchases `gpuMiner` (level 0 → 1, clicks 100 → 0) instead of failing
with UnknownUpgrade and leaving the state unchanged; the code's own
`if (!upgrade)` invalid-key guard is unreachable.  (The script.js
revision instead looks the id up in the upgrade table and rejects unknown
ids as the claim states.) -/
theorem unknown_id_purchases_gpuMiner :
    (handleBuyUpgrade .crypto ("3")
      { DEFAULT_GAME_STATE with clicks := 100 }).1 = .success ∧
    (handleBuyUpgrade .crypto ("3")
      { DEFAULT_GAME_STATE with clicks := 100 }).2.upgrades.gpuMiner.level = 1 ∧
    (handleBuyUpgrade .crypto ("3")
      { DEFAULT_GAME_STATE with clicks := 100 }).2.clicks = 0 := by
  rw [handleBuyUpgrade, show (if ("3" : String) = "1" then UpgradeKey.cpuOverclock
    else UpgradeKey.gpuMiner) = .gpuMiner from rfl]
  norm_num [buyUpgradeKey, calculateCost, DEFAULT_GAME_STATE, GameState.up,
    GameState.setUp, updateCPS, UPGRADE_CONFIGS]

/-! ## Claim C9 — periodic save -/

/-- A state about to pass a multiple of 5: 3 clicks, passive rate 4. -/
def tickSkipState : GameState :=
  { DEFAULT_GAME_STATE with clicks := 3, cps := 4 }

/-- C9 (counterexample): from `clicks = 3` with `cps = 4` the tick moves
`clicks` to 7 — the accumulated currency passes the multiple 5 — yet no
save is performed (`floor(7) % 5 = 2 ≠ 0`). -/
theorem periodic_save_skipped :
    tickSkipState.clicks < 5 ∧
    5 ≤ (gameLoop tickSkipState).1.clicks ∧
    (gameLoop tickSkipState).2 = false := by
  refine ⟨by norm_num [tickSkipState, DEFAULT_GAME_STATE], ?_, ?_⟩ <;>
    norm_num [gameLoop, jsRound, tickSkipState, DEFAULT_GAME_STATE]

/-- C9 (amended): on a firing, a save is performed exactly when passive
income is applied (`cps > 0`) AND the post-tick `⌊clicks⌋` is divisible
by 5; under unit increments (`cps = 1` from integral `clicks = n`) that
is exactly every 5th accumulated currency unit, but since a tick advances
`clicks` by `round(cps)`, which can exceed 1, a multiple of 5 can be
passed without a save (best-effort periodic save). -/
theorem periodic_save_spec (s : GameState) :
    ((gameLoop s).2 = true ↔
      0 < s.cps ∧ ⌊(gameLoop s).1.clicks⌋ % 5 = 0) ∧
    (∀ n : ℕ, (gameLoop { s with clicks := (n : ℚ), cps := 1 }).2 = true ↔
      ((n : ℤ) + 1) % 5 = 0) := by
  constructor
  · unfold gameLoop
    by_cases h : 0 < s.cps
    · rw [if_pos h]
      simp [h]
    · rw [if_neg h]
      simp [h]
  · intro n
    unfold gameLoop
    rw [if_pos (by norm_num : (0:ℚ) < ({ s with clicks := (n : ℚ), cps := 1 } : GameState).cps)]
    have hr : jsRound ({ s with clicks := (n : ℚ), cps := 1 } : GameState).cps = 1 := by
      norm_num [jsRound]
    rw [hr]
    have hf : ⌊(n : ℚ) + ((1 : ℤ) : ℚ)⌋ = (n : ℤ) + 1 := by
      push_cast
      norm_num [Int.floor_add_int]
    simp only [hf]
    simp

/-- C9 (witness for the amended claim): with `cps = 1`, ticking from 4
clicks saves (5 is reached exactly) and ticking from 5 clicks does not. -/
theorem periodic_save_spec_witness :
    ((gameLoop { DEFAULT_GAME_STATE with clicks := (4:ℕ), cps := 1 }).2 = true) ∧
    ¬ ((gameLoop { DEFAULT_GAME_STATE with clicks := (5:ℕ), cps := 1 }).2 = true) := by
  constructor
  · exact ((periodic_save_spec DEFAULT_GAME_STATE).2 4).mpr (by norm_num)
  · intro hcontra
    have := ((periodic_save_spec DEFAULT_GAME_STATE).2 5).mp hcontra
    norm_num at this

/-! ## Claim C10 — totalEarned ≥ currency invariant -/

/-- The mutating operations claim C10 ranges over: manual click, passive
tick, upgrade purchase, the currency-granting redeem code, and the admin
currency set (a no-op when validation rejects the value). -/
inductive MutOp where
  | click
  | tick
  | buy (mode : GameMode) (key : UpgradeKey)
  | redeem
  | adminSetClicks (value : ℚ)

/-- Apply one mutating operation. -/
def applyMutOp : MutOp → GameState → GameState
  | .click, s => handleGameClick s
  | .tick, s => gameLoopTick s
  | .buy mode key, s => (buyUpgradeKey mode key s).2
  | .redeem, s => redeemBornToCode s
  | .adminSetClicks v, s => (handleAdminSetClicks v 0 s).getD s

/-- States reachable from the default template by the mutating
operations. -/
inductive ReachableState : GameState → Prop where
  | init : ReachableState DEFAULT_GAME_STATE
  | step (op : MutOp) {s : GameState} :
      ReachableState s → ReachableState (applyMutOp op s)

/-- Auxiliary invariant: the immutable cost parameters stay non-negative
(they are in fact never written after initialization). -/
def CostsNonneg (s : GameState) : Prop :=
  0 ≤ s.upgrades.cpuOverclock.baseCost ∧
  0 ≤ s.upgrades.cpuOverclock.costMultiplier ∧
  0 ≤ s.upgrades.gpuMiner.baseCost ∧
  0 ≤ s.upgrades.gpuMiner.costMultiplier

theorem cost_nonneg_of (b m : ℚ) (hb : 0 ≤ b) (hm : 0 ≤ m) (l : ℕ) :
    (0 : ℚ) ≤ ((calculateCost b m l : ℤ) : ℚ) := by
  have : (0 : ℤ) ≤ calculateCost b m l :=
    Int.floor_nonneg.mpr (mul_nonneg hb (pow_nonneg hm l))
  exact_mod_cast this

theorem reachable_inv {s : GameState} (h : ReachableState s) :
    s.clicks ≤ s.totalClicksEarned ∧ CostsNonneg s := by
  induction h with
  | init =>
    refine ⟨le_refl _, ?_⟩
    norm_num [CostsNonneg, DEFAULT_GAME_STATE]
  | step op hprev ih =>
    rename_i t
    obtain ⟨hle, hc⟩ := ih
    cases op with
    | click => exact ⟨add_le_add_right hle _, hc⟩
    | tick =>
      dsimp only [applyMutOp]
      unfold gameLoopTick gameLoop
      dsimp only
      split
      · exact ⟨add_le_add_right hle _, hc⟩
      · exact ⟨hle, hc⟩
    | redeem => exact ⟨add_le_add_right hle _, hc⟩
    | buy mode key =>
      dsimp only [applyMutOp]
      unfold buyUpgradeKey
      dsimp only
      split
      · rename_i hcost
        have hcost0 : (0 : ℚ) ≤ ((calculateCost (GameState.up t key).baseCost
            (GameState.up t key).costMultiplier (GameState.up t key).level : ℤ) : ℚ) := by
          cases key with
          | cpuOverclock => exact cost_nonneg_of _ _ hc.1 hc.2.1 _
          | gpuMiner => exact cost_nonneg_of _ _ hc.2.2.1 hc.2.2.2 _
        constructor
        · rw [updateCPS_clicks, updateCPS_totalClicksEarned]
          cases key <;>
            · dsimp [GameState.setUp]
              linarith
        · unfold CostsNonneg
          rw [updateCPS_upgrades]
          cases key <;> exact ⟨hc.1, hc.2.1, hc.2.2.1, hc.2.2.2⟩
      · exact ⟨hle, hc⟩
    | adminSetClicks v =>
      dsimp only [applyMutOp]
      unfold handleAdminSetClicks
      dsimp only
      split
      · exact ⟨hle, hc⟩
      · rename_i hv
        dsimp [Option.getD]
        constructor
        · split
          · rename_i hd
            linarith
          · rename_i hd
            push_neg at hd
            have hvle : v ≤ t.clicks := by linarith
            linarith
        · exact hc

/-- C10: in every state reachable from the default template by the
mutating operations (click, tick, purchase, currency-granting code,
admin currency set), `totalClicksEarned ≥ clicks`. -/
theorem totalEarned_ge_clicks {s : GameState} (h : ReachableState s) :
    s.clicks ≤ s.totalClicksEarned :=
  (reachable_inv h).1

/-- C10 (witness): the state after redeeming the grant code, clicking
once, and buying `cpuOverclock` satisfies the invariant. -/
theorem totalEarned_ge_clicks_witness :
    (applyMutOp (.buy .crypto .cpuOverclock) (applyMutOp .click
      (applyMutOp .redeem DEFAULT_GAME_STATE))).clicks ≤
    (applyMutOp (.buy .crypto .cpuOverclock) (applyMutOp .click
      (applyMutOp .redeem DEFAULT_GAME_STATE))).totalClicksEarned :=
  totalEarned_ge_clicks (ReachableState.step _ (ReachableState.step _
    (ReachableState.step _ ReachableState.init)))

/-! ## Claim C5 — load/merge semantics -/

/-- A legitimate state whose `cpc` was admin-overridden to 0 (the spec's
`setOverride` only enforces non-negativity for `cpc`). -/
def cpcZeroState : GameState :=
  { DEFAULT_GAME_STATE with cpc := 0, isCpcOverridden := true }

/-- C5 (counterexample): the claim says a legitimately stored zero is
preserved by the load merge; but the `loadedData.cpc || 1` coalescing
treats the stored `cpc = 0` — produced by an admin override — as missing
and resets it to the default 1. -/
theorem load_resets_stored_zero_cpc :
    handleAdminSetCPC 0 0 DEFAULT_GAME_STATE = some cpcZeroState ∧
    (serialize cpcZeroState).cpc = some 0 ∧
    (loadGame DEFAULT_GAME_STATE (.parsed (serialize cpcZeroState))).cpc = 1 := by
  refine ⟨?_, rfl, ?_⟩
  · norm_num [handleAdminSetCPC, cpcZeroState]
  · norm_num [loadGame, mergePayload, serialize, coalNum, cpcZeroState,
      DEFAULT_GAME_STATE]

/-- C5 (amended): `loadGame` merges field-by-field onto a fresh default
copy with JavaScript falsy-coalescing: a field that is missing is
defaulted, a non-falsy stored value is preserved, but so is every FALSY
stored value defaulted — in particular a stored `cpc = 0` becomes 1
(stored `false` flags and zero levels coincide with their defaults, so
only zero numerics with nonzero defaults are actually damaged); the cost
parameters always come from the template; and a corrupt payload falls
back to the default template with no error surfaced (the function is
total). -/
theorem load_merge_spec (cur : GameState) (p : SavedPayload) :
    (loadGame cur .corrupt = DEFAULT_GAME_STATE) ∧
    (∀ x : ℚ, p.cpc = some x → x ≠ 0 → (loadGame cur (.parsed p)).cpc = x) ∧
    ((p.cpc = none ∨ p.cpc = some 0) → (loadGame cur (.parsed p)).cpc = 1) ∧
    (∀ x : ℚ, p.clicks = some x → x ≠ 0 → (loadGame cur (.parsed p)).clicks = x) ∧
    ((p.clicks = none ∨ p.clicks = some 0) → (loadGame cur (.parsed p)).clicks = 0) ∧
    (∀ b : Bool, p.isCpsOverridden = some b →
      (loadGame cur (.parsed p)).isCpsOverridden = b) ∧
    (∀ us : SavedUpgrades, ∀ e : SavedUpgradeEntry, ∀ l : ℕ,
      p.upgrades = some us → us.cpuOverclock = some e → e.level = some l →
      (loadGame cur (.parsed p)).upgrades.cpuOverclock.level = l) ∧
    (p.upgrades = none →
      (loadGame cur (.parsed p)).upgrades = DEFAULT_GAME_STATE.upgrades) ∧
    ((loadGame cur (.parsed p)).upgrades.cpuOverclock.baseCost =
      DEFAULT_GAME_STATE.upgrades.cpuOverclock.baseCost) := by
  refine ⟨rfl, ?_, ?_, ?_, ?_, ?_, ?_, ?_, rfl⟩
  · intro x hx hx0
    simp [loadGame, mergePayload, coalNum, hx, hx0]
  · rintro (h | h) <;> simp [loadGame, mergePayload, coalNum, h]
  · intro x hx hx0
    simp [loadGame, mergePayload, coalNum, hx, hx0]
  · rintro (h | h) <;> simp [loadGame, mergePayload, coalNum, h]
  · intro b hb
    cases b <;> simp [loadGame, mergePayload, coalBool, hb]
  · intro us e l hus he hl
    rcases eq_or_ne l 0 with rfl | hne
    · simp [loadGame, mergePayload, coalLevel, hus, he, hl]
    · simp [loadGame, mergePayload, coalLevel, hus, he, hl, hne]
  · intro h
    simp [loadGame, mergePayload, coalLevel, h]
    rfl

/-- A sparse payload: stored `clicks = 7`, `cpc = 3`, a raised CPS
override flag and `cpuOverclock` level 2; everything else missing. -/
def sparsePayload : SavedPayload :=
  ⟨some 7, none, some 3, none, none, none, none, some true,
    some ⟨some ⟨some 2, none, none⟩, none⟩⟩

/-- C5 (witness): loading the sparse payload preserves its non-falsy
values and backfills the rest. -/
theorem load_merge_spec_witness :
    (loadGame DEFAULT_GAME_STATE (.parsed sparsePayload)).clicks = 7 ∧
    (loadGame DEFAULT_GAME_STATE (.parsed sparsePayload)).cpc = 3 ∧
    (loadGame DEFAULT_GAME_STATE (.parsed sparsePayload)).isCpsOverridden = true ∧
    (loadGame DEFAULT_GAME_STATE (.parsed sparsePayload)).upgrades.cpuOverclock.level = 2 := by
  have h := load_merge_spec DEFAULT_GAME_STATE sparsePayload
  exact ⟨h.2.2.2.1 7 rfl (by norm_num), h.2.1 3 rfl (by norm_num),
    h.2.2.2.2.2.1 true rfl,
    h.2.2.2.2.2.2.1 ⟨some ⟨some 2, none, none⟩, none⟩ ⟨some 2, none, none⟩ 2
      rfl rfl rfl⟩

/-! ## Claim C6 — mode isolation -/

theorem slot_setSlot_self (st : Store) (m : GameMode) (p : SavedPayload) :
    (st.setSlot m p).slot m = some p := by
  cases m <;> rfl

theorem slot_setSlot_ne {st : Store} {m k : GameMode} (h : m ≠ k)
    {p : SavedPayload} : (st.setSlot m p).slot k = st.slot k := by
  cases m <;> cases k <;> simp_all [Store.setSlot, Store.slot]

theorem slot_modeKey_update (st : Store) (k : GameMode) (x : Option GameMode) :
    ({ st with modeKey := x } : Store).slot k = st.slot k := by
  cases k <;> rfl

theorem switchGameMode_mode_ne {newMode : GameMode} {w : World}
    (h : w.mode ≠ newMode) : (switchGameMode newMode w).mode = newMode := by
  rw [switchGameMode, if_neg h]
  rfl

theorem switchGameMode_store_ne {newMode : GameMode} {w : World}
    (h : w.mode ≠ newMode) :
    (switchGameMode newMode w).store =
      ({ w.store with modeKey := some newMode } : Store).setSlot w.mode
        (serialize w.state) := by
  rw [switchGameMode, if_neg h]
  rfl

theorem switchGameMode_state_ne {newMode : GameMode} {w : World}
    (h : w.mode ≠ newMode) :
    (switchGameMode newMode w).state =
      updateCPS newMode (loadGame w.state (slotInput
        ((({ w.store with modeKey := some newMode } : Store).setSlot w.mode
          (serialize w.state)).slot newMode))) := by
  rw [switchGameMode, if_neg h]
  rfl

/-- The loader round-trips on a serialized state whose falsy-sensitive
fields survive the coalescing (`cpc ≠ 0`, non-empty `activeTab`) and
whose cost parameters are the template's (the loader always re-reads
them from the template; the game never writes them). -/
theorem mergePayload_serialize (s : GameState) (hcpc : s.cpc ≠ 0)
    (htab : s.activeTab ≠ "")
    (hb1 : s.upgrades.cpuOverclock.baseCost = 10)
    (hm1 : s.upgrades.cpuOverclock.costMultiplier = 3/2)
    (hb2 : s.upgrades.gpuMiner.baseCost = 100)
    (hm2 : s.upgrades.gpuMiner.costMultiplier = 8/5) :
    mergePayload (serialize s) = s := by
  obtain ⟨c, te, cpc, cps, ⟨⟨l1, b1, mu1⟩, ⟨l2, b2, mu2⟩⟩, tab, adm, f1, f2⟩ := s
  simp only at hcpc htab hb1 hm1 hb2 hm2
  simp only [mergePayload, serialize, coalNum, coalBool, coalStr, coalLevel,
    GameState.mk.injEq, UpgradeMap.mk.injEq, UpgradeState.mk.injEq,
    DEFAULT_GAME_STATE]
  repeat' apply And.intro
  all_goals first
  | rfl
  | (split <;> simp_all)
  | simp_all

/-- While the active mode is not `A`, clicks and purchase attempts never
write `A`'s slot and never change the active mode. -/
theorem userOps_preserve_other_slot (A : GameMode) (ops : List UserOp) :
    ∀ w : World, w.mode ≠ A →
      (applyUserOps ops w).mode = w.mode ∧
      (applyUserOps ops w).store.slot A = w.store.slot A := by
  induction ops with
  | nil => exact fun w _ => ⟨rfl, rfl⟩
  | cons op tail ih =>
    intro w hw
    have hstep : (applyUserOp op w).mode = w.mode ∧
        (applyUserOp op w).store.slot A = w.store.slot A := by
      cases op with
      | click => exact ⟨rfl, slot_setSlot_ne hw⟩
      | buy upgradeId =>
        unfold applyUserOp
        dsimp only
        split
        · exact ⟨rfl, slot_setSlot_ne hw⟩
        · exact ⟨rfl, rfl⟩
    have hrest := ih (applyUserOp op w) (by rw [hstep.1]; exact hw)
    exact ⟨hrest.1.trans hstep.1, hrest.2.trans hstep.2⟩

/-- The crypto-mode world holding a `cpc = 0` overridden state, with an
empty store. -/
def cpcZeroWorld : World := ⟨.crypto, cpcZeroState, ⟨none, none, none⟩⟩

/-- C6 (counterexample): switching away and immediately back does NOT
always restore exactly the state the mode had before leaving: a state
whose `cpc` was legitimately overridden to 0 comes back with the default
`cpc = 1`, because the switch re-loads the outgoing snapshot through the
falsy-coalescing loader. -/
theorem switch_back_loses_zero_cpc :
    cpcZeroWorld.state.cpc = 0 ∧
    (switchGameMode .crypto (switchGameMode .pencil cpcZeroWorld)).state.cpc = 1 ∧
    (switchGameMode .crypto (switchGameMode .pencil cpcZeroWorld)).state ≠
      cpcZeroWorld.state := by
  have hne1 : cpcZeroWorld.mode ≠ GameMode.pencil := by decide
  have hmode1 : (switchGameMode .pencil cpcZeroWorld).mode = .pencil :=
    switchGameMode_mode_ne hne1
  have hne2 : (switchGameMode .pencil cpcZeroWorld).mode ≠ GameMode.crypto := by
    rw [hmode1]; decide
  have h1 : (switchGameMode .crypto (switchGameMode .pencil cpcZeroWorld)).state.cpc = 1 := by
    rw [switchGameMode_state_ne hne2, hmode1,
      switchGameMode_store_ne hne1]
    rw [slot_setSlot_ne (by decide : GameMode.pencil ≠ GameMode.crypto),
      slot_modeKey_update,
      show cpcZeroWorld.mode = GameMode.crypto from rfl,
      slot_setSlot_self]
    show (updateCPS _ (mergePayload (serialize cpcZeroWorld.state))).cpc = 1
    simp [mergePayload, serialize, coalNum, coalBool, coalStr, coalLevel,
      updateCPS, UPGRADE_CONFIGS, cpcZeroWorld, cpcZeroState,
      DEFAULT_GAME_STATE]
  refine ⟨rfl, h1, fun hcontra => ?_⟩
  rw [hcontra] at h1
  exact absurd h1 (by norm_num [cpcZeroWorld, cpcZeroState, DEFAULT_GAME_STATE])

/-- C6 (amended): for distinct modes `A`, `B`, with `A` active: clicks
and purchases applied after switching to `B` never change `A`'s persisted
slot — the switch stores the outgoing state there and later switches back
by loading it; the restored state equals the pre-switch state exactly
whenever that state survives the loader's falsy-coalescing merge
(`cpc ≠ 0`, non-empty `activeTab`, template cost parameters) and is
consistent with its own derived-stat recomputation — the zero-`cpc`
counterexample is the exception. -/
theorem mode_isolation (A B : GameMode) (hAB : A ≠ B) (w : World)
    (hwm : w.mode = A) (ops : List UserOp)
    (hfix : updateCPS A w.state = w.state)
    (hcpc : w.state.cpc ≠ 0) (htab : w.state.activeTab ≠ "")
    (hb1 : w.state.upgrades.cpuOverclock.baseCost = 10)
    (hm1 : w.state.upgrades.cpuOverclock.costMultiplier = 3/2)
    (hb2 : w.state.upgrades.gpuMiner.baseCost = 100)
    (hm2 : w.state.upgrades.gpuMiner.costMultiplier = 8/5) :
    (applyUserOps ops (switchGameMode B w)).store.slot A =
      some (serialize w.state) ∧
    (switchGameMode A (applyUserOps ops (switchGameMode B w))).state =
      w.state := by
  have hw1 : w.mode ≠ B := by rw [hwm]; exact hAB
  have hslotA : (switchGameMode B w).store.slot A = some (serialize w.state) := by
    rw [switchGameMode_store_ne hw1, hwm, slot_setSlot_self]
  have hmode : (switchGameMode B w).mode = B := switchGameMode_mode_ne hw1
  have hner : (switchGameMode B w).mode ≠ A := by
    rw [hmode]; exact hAB.symm
  have hops := userOps_preserve_other_slot A ops (switchGameMode B w) hner
  have hslotA2 : (applyUserOps ops (switchGameMode B w)).store.slot A =
      some (serialize w.state) := hops.2.trans hslotA
  refine ⟨hslotA2, ?_⟩
  have hmode2 : (applyUserOps ops (switchGameMode B w)).mode ≠ A := by
    rw [hops.1.trans hmode]; exact hAB.symm
  rw [switchGameMode_state_ne hmode2]
  rw [slot_setSlot_ne hmode2, slot_modeKey_update, hslotA2]
  show updateCPS A (mergePayload (serialize w.state)) = w.state
  rw [mergePayload_serialize w.state hcpc htab hb1 hm1 hb2 hm2, hfix]

/-- The crypto-mode world holding the default state, with an empty
store. -/
def defaultWorld : World := ⟨.crypto, DEFAULT_GAME_STATE, ⟨none, none, none⟩⟩

/-- C6 (witness): from the default crypto state, switch to pencil, click
once there, and switch back: the crypto slot still holds the pre-switch
snapshot and the restored state is exactly the pre-switch state. -/
theorem mode_isolation_witness :
    (applyUserOps [.click] (switchGameMode .pencil defaultWorld)).store.slot
      .crypto = some (serialize DEFAULT_GAME_STATE) ∧
    (switchGameMode .crypto (applyUserOps [.click]
      (switchGameMode .pencil defaultWorld))).state = DEFAULT_GAME_STATE := by
  exact mode_isolation .crypto .pencil (by simp) defaultWorld rfl [.click]
    (by simp [updateCPS, defaultWorld, DEFAULT_GAME_STATE, UPGRADE_CONFIGS])
    (by norm_num [defaultWorld, DEFAULT_GAME_STATE])
    (by simp [defaultWorld, DEFAULT_GAME_STATE])
    rfl rfl rfl rfl

end Clicker
